import Mathlib

/-!
Shallow embedding of the object-detection HTTP service in `backend.py`:
path helpers modelled on `os.path`, a file-system state, the inference
wrapper `run_detection` (lines 46-97) and the endpoint handler
`predict_image` (lines 100-161).  The opaque model call and the two
fallible I/O steps are parametrised by explicit oracles, so every
execution path of the handler corresponds to a choice of oracle values.
-/

namespace Backend

/-- Python `str.lower()` on the ASCII range, as applied to filename
extensions and names in `backend.py` (lines 79 and 112). -/
def pyLower (s : String) : String := ⟨s.data.map Char.toLower⟩

/-- Python `s.endswith(t)`: `t` is a suffix of `s`. -/
def pyEndsWith (s t : String) : Bool := t.data.isSuffixOf s.data

/-- Characters of `os.path.basename p`: the part of `p` after the last
slash. -/
def basenameChars (p : List Char) : List Char :=
  (p.reverse.takeWhile (· != '/')).reverse

/-- Python `os.path.basename`. -/
def basenameStr (p : String) : String := ⟨basenameChars p.data⟩

/-- Extension component of Python `os.path.splitext p` (with its leading
dot): the piece of the basename starting at its last dot, except that
leading dots of the basename never begin an extension (so `.bashrc` and
`...` have extension `""`). -/
def extChars (p : List Char) : List Char :=
  let base := basenameChars p
  let rest := base.dropWhile (· == '.')
  if ('.' : Char) ∈ rest then
    '.' :: (rest.reverse.takeWhile (· != '.')).reverse
  else []

/-- Extension of a path, `os.path.splitext(p)[1]`. -/
def splitext_ext (p : String) : String := ⟨extChars p.data⟩

/-- Python `s.lstrip('.')`: remove every leading dot. -/
def lstripDot (s : String) : String := ⟨s.data.dropWhile (· == '.')⟩

/-- Configuration constant of `backend.py` line 12; `0.5` is exactly
representable, so a rational models the Python float faithfully. -/
def CONF_THRESHOLD : ℚ := 0.5

/-- Configuration constant of `backend.py` line 13. -/
def TEMP_UPLOAD_DIR : String := "temp_uploads"

/-- Configuration constant of `backend.py` line 14. -/
def TEMP_OUTPUT_DIR : String := "temp_outputs"

/-- File-system state: the list of file paths that currently exist, in
creation order (directories are implicit in the path strings). -/
structure FS where
  files : List String
deriving DecidableEq

/-- Python `os.path.exists`. -/
def FS.exists (fs : FS) (p : String) : Bool := decide (p ∈ fs.files)

/-- Effect of `open(p, "wb")` creating / truncating a file: afterwards the
path exists; an already existing path is kept in place (contents are not
modelled). -/
def FS.create (fs : FS) (p : String) : FS :=
  if p ∈ fs.files then fs else ⟨fs.files ++ [p]⟩

/-- Python `os.remove p`, modelled as succeeding: afterwards the path does
not exist. -/
def FS.remove (fs : FS) (p : String) : FS := ⟨fs.files.filter (· != p)⟩

/-- Python `os.listdir dir`: the names of the recorded files under `dir`,
in recording order. -/
def FS.listdir (fs : FS) (dir : String) : List String :=
  fs.files.filterMap fun p =>
    if (dir.data ++ ['/']).isPrefixOf p.data then
      some ⟨p.data.drop (dir.data.length + 1)⟩
    else none

/-- A raised `HTTPException`: status code and detail message. -/
structure HTTPError where
  status_code : Nat
  detail : String
deriving DecidableEq

/-- Starlette `str(HTTPException)`, namely `f"{status_code}: {detail}"`. -/
def strOfHTTPError (e : HTTPError) : String :=
  toString e.status_code ++ ": " ++ e.detail

/-- Arguments of the `model.predict` invocation at line 65. -/
structure PredictCall where
  source : String
  save : Bool
  conf : ℚ
  project : String
  name : String
  exist_ok : Bool
deriving DecidableEq

/-- Oracle for the outcome of the opaque `model.predict` call: it raises
(`raises msg`, with `msg` the Python `str` of the exception), or returns an
empty results list / one whose head lacks a `save_dir` attribute
(`noResults`), or returns a result whose `save_dir` equals `saveDir` after
writing files named `written` into that directory (`ok`).  Files the model
might write on the `raises` and `noResults` paths are not modelled. -/
inductive PredictBehavior where
  | raises (msg : String)
  | noResults
  | ok (saveDir : String) (written : List String)
deriving DecidableEq

/-- Oracle for the outcome of persisting the upload (lines 120-121): the
write succeeds (`ok`), or `shutil.copyfileobj` fails after `open` already
created the file (`failPartial`), or `open` itself fails so no file is
created (`failNoFile`). -/
inductive SaveOutcome where
  | ok
  | failPartial
  | failNoFile
deriving DecidableEq

/-- Result of `run_detection`: either a propagating `HTTPException` or the
returned saved path, together with the file system afterwards and the list
of `model.predict` invocations made. -/
inductive DetectOutcome where
  | raised (e : HTTPError)
  | ok (path : String)
deriving DecidableEq

structure DetectResult where
  outcome : DetectOutcome
  fs : FS
  calls : List PredictCall
deriving DecidableEq

/-- Extensions matched by the fallback search at line 79. -/
def imageFileExts : List String :=
  [".png", ".jpg", ".jpeg", ".bmp", ".tif", ".tiff"]

/-- Filter of the fallback search at line 79:
`f.lower().endswith(('.png', '.jpg', '.jpeg', '.bmp', '.tif', '.tiff'))`. -/
def isImageFileName (f : String) : Bool :=
  imageFileExts.any fun e => pyEndsWith (pyLower f) e

/-- Exception constructed at line 91 when no output file is located. -/
def saveFailureError : HTTPError := ⟨500, "推論結果の保存に失敗しました。"⟩

/-- Detail message of the catch-all handler at line 97 of `run_detection`:
`f"推論中に内部エラーが発生しました: {str(e)}"`. -/
def unexpectedDetail (s : String) : String :=
  "推論中に内部エラーが発生しました: " ++ s

/-- Output subdirectory generated at line 62: `os.path.join(TEMP_OUTPUT_DIR,
unique_id)`. -/
def outputSubdir (uid : String) : String := TEMP_OUTPUT_DIR ++ "/" ++ uid

/-- Effect of the model writing the files `names` into directory `dir`. -/
def writeFiles (fs : FS) (dir : String) (names : List String) : FS :=
  names.foldl (fun a n => a.create (dir ++ "/" ++ n)) fs

/-- Lines 46-97 of `backend.py`.  `modelLoaded` is whether the module-level
`model` is not `None`; `uid` is the `uuid.uuid4()` string generated at line
61; `beh` is the oracle for the opaque `model.predict` call.  Note that the
`HTTPException(500)` raised at line 91 when no output file is found sits
inside the `try` block, so the `except Exception` handler at line 93
catches it (`HTTPException` is an `Exception`) and re-raises it with its
`str` interpolated into the generic detail of line 97. -/
def run_detection (modelLoaded : Bool) (beh : PredictBehavior) (uid : String)
    (image_path : String) (fs : FS) : DetectResult :=
  if !modelLoaded then
    ⟨.raised ⟨500, "モデルがロードされていません。"⟩, fs, []⟩
  else
    let call : PredictCall :=
      ⟨image_path, true, CONF_THRESHOLD, TEMP_OUTPUT_DIR, uid, true⟩
    match beh with
    | .raises msg =>
        ⟨.raised ⟨500, unexpectedDetail msg⟩, fs, [call]⟩
    | .noResults =>
        ⟨.raised ⟨500, unexpectedDetail (strOfHTTPError saveFailureError)⟩,
          fs, [call]⟩
    | .ok saveDir written =>
        let fs1 := writeFiles fs saveDir written
        let input_filename := basenameStr image_path
        let potential_saved_path := saveDir ++ "/" ++ input_filename
        let saved_path : Option String :=
          if fs1.exists potential_saved_path then some potential_saved_path
          else
            match (fs1.listdir saveDir).filter isImageFileName with
            | [] => none
            | f :: _ => some (saveDir ++ "/" ++ f)
        match saved_path with
        | some p =>
            if fs1.exists p then ⟨.ok p, fs1, [call]⟩
            else
              ⟨.raised ⟨500, unexpectedDetail (strOfHTTPError saveFailureError)⟩,
                fs1, [call]⟩
        | none =>
            ⟨.raised ⟨500, unexpectedDetail (strOfHTTPError saveFailureError)⟩,
              fs1, [call]⟩

/-- Endpoint outcome: a `FileResponse` (path and `media_type`) or a raised
`HTTPException`. -/
inductive Response where
  | fileResponse (path : String) (media_type : String)
  | error (e : HTTPError)
deriving DecidableEq

structure ApiResult where
  resp : Response
  fs : FS
  calls : List PredictCall
deriving DecidableEq

/-- Whitelist of upload extensions, line 111 of `backend.py`. -/
def allowed_extensions : List String := [".jpg", ".jpeg", ".png"]

/-- Detail of the 400 response at line 115; the element order produced by
Python's set interpolation is unspecified, fixed here to the literal's
order. -/
def invalidExtDetail : String :=
  "無効なファイル形式です。許可されている形式: " ++
    String.intercalate ", " allowed_extensions

/-- Temp upload path generated at line 118:
`os.path.join(TEMP_UPLOAD_DIR, f"{uuid.uuid4()}{file_ext}")`. -/
def tempInputPath (uid ext : String) : String :=
  TEMP_UPLOAD_DIR ++ "/" ++ uid ++ ext

/-- Lines 100-161 of `backend.py`.  `uid_in` is the `uuid.uuid4()` string
for the temp upload, `uid_out` the one generated inside `run_detection`,
`so` the oracle for the upload-persisting step and `beh` the oracle for
`model.predict`.  The `os.remove` of the cleanup `finally` (line 145) and
the `FileResponse` construction (line 155) are modelled as succeeding.
When the save step fails (`failPartial` / `failNoFile`) the handler raises
at line 125 before entering the `try` that owns the cleanup `finally` of
lines 141-148, so no deletion is attempted on that path. -/
def predict_image (modelLoaded : Bool) (filename : String) (so : SaveOutcome)
    (beh : PredictBehavior) (uid_in uid_out : String) (fs : FS) : ApiResult :=
  if !modelLoaded then
    ⟨.error ⟨503, "モデルが利用不可です。サーバーを確認してください。"⟩, fs, []⟩
  else
    let file_ext := pyLower (splitext_ext filename)
    if file_ext ∉ allowed_extensions then
      ⟨.error ⟨400, invalidExtDetail⟩, fs, []⟩
    else
      let temp_input_path := tempInputPath uid_in file_ext
      match so with
      | .failNoFile =>
          ⟨.error ⟨500, "ファイルのアップロード処理中にエラーが発生しました。"⟩, fs, []⟩
      | .failPartial =>
          ⟨.error ⟨500, "ファイルのアップロード処理中にエラーが発生しました。"⟩,
            fs.create temp_input_path, []⟩
      | .ok =>
          let fs1 := fs.create temp_input_path
          let d := run_detection modelLoaded beh uid_out temp_input_path fs1
          let fs2 :=
            if d.fs.exists temp_input_path then d.fs.remove temp_input_path
            else d.fs
          match d.outcome with
          | .raised e => ⟨.error e, fs2, d.calls⟩
          | .ok result_image_path =>
              ⟨.fileResponse result_image_path ("image/" ++ lstripDot file_ext),
                fs2, d.calls⟩

/-! Basic lemmas about the embedding. -/

lemma str_data_inj {s t : String} (h : s.data = t.data) : s = t := by
  cases s; cases t; exact congrArg String.mk h

lemma FS.exists_remove_self (fs : FS) (p : String) :
    (fs.remove p).exists p = false := by
  simp [FS.remove, FS.exists, List.mem_filter]

/-! Claim theorems. -/

/-- C4: when the model failed to load at startup, every request to
`POST /predict/` is rejected with HTTP 503, the file system is left
untouched (no temp file is created) and `model.predict` is never
invoked. -/
theorem C4_model_unloaded_503 (filename : String) (so : SaveOutcome)
    (beh : PredictBehavior) (ui uo : String) (fs : FS) :
    predict_image false filename so beh ui uo fs =
      ⟨.error ⟨503, "モデルが利用不可です。サーバーを確認してください。"⟩, fs, []⟩ := rfl

/-- C2 (counterexample): an upload with the disallowed extension `.gif`
does not always receive HTTP 400 — when the model is unloaded the handler
rejects it with 503 before the extension check runs. -/
theorem C2_counterexample :
    pyLower (splitext_ext "notes.gif") ∉ allowed_extensions ∧
    (predict_image false "notes.gif" SaveOutcome.ok PredictBehavior.noResults
        "u1" "u2" ⟨[]⟩).resp =
      Response.error ⟨503, "モデルが利用不可です。サーバーを確認してください。"⟩ := by
  exact ⟨by decide, rfl⟩

/-- C2 (amended): for every upload whose extension is not allowed, the
service returns 400 when the model is loaded and 503 when it is not; in
either model state it performs no inference and writes no temp file. -/
theorem C2_bad_extension (m : Bool) (filename : String) (so : SaveOutcome)
    (beh : PredictBehavior) (ui uo : String) (fs : FS)
    (hext : pyLower (splitext_ext filename) ∉ allowed_extensions) :
    (predict_image m filename so beh ui uo fs).resp =
      (if m then Response.error ⟨400, invalidExtDetail⟩
       else Response.error ⟨503, "モデルが利用不可です。サーバーを確認してください。"⟩) ∧
    (predict_image m filename so beh ui uo fs).fs = fs ∧
    (predict_image m filename so beh ui uo fs).calls = [] := by
  cases m
  · exact ⟨rfl, rfl, rfl⟩
  · have hrun : predict_image true filename so beh ui uo fs =
        ⟨.error ⟨400, invalidExtDetail⟩, fs, []⟩ := by
      simp only [predict_image, Bool.not_true, Bool.false_eq_true, if_false,
        if_pos hext]
    rw [hrun]
    exact ⟨rfl, rfl, rfl⟩

/-- C2 (witness): the amended claim at a concrete input: a `.gif` upload
with the model loaded gets 400, no inference, no temp file. -/
theorem C2_bad_extension_witness :
    (predict_image true "notes.gif" SaveOutcome.ok PredictBehavior.noResults
        "u1" "u2" ⟨[]⟩).resp =
      (if true then Response.error ⟨400, invalidExtDetail⟩
       else Response.error ⟨503, "モデルが利用不可です。サーバーを確認してください。"⟩) ∧
    (predict_image true "notes.gif" SaveOutcome.ok PredictBehavior.noResults
        "u1" "u2" ⟨[]⟩).fs = ⟨[]⟩ ∧
    (predict_image true "notes.gif" SaveOutcome.ok PredictBehavior.noResults
        "u1" "u2" ⟨[]⟩).calls = [] :=
  C2_bad_extension true "notes.gif" SaveOutcome.ok PredictBehavior.noResults
    "u1" "u2" ⟨[]⟩ (by decide)

/-- C1 (counterexample): when `shutil.copyfileobj` fails after `open`
created the temp file (oracle `failPartial`), the request completes with
the 500 of line 125 but the temp input file still exists — the cleanup
`finally` of lines 141-148 belongs to the inference `try` block, which is
never entered on this path. -/
theorem C1_counterexample :
    (predict_image true "cat.png" SaveOutcome.failPartial
        PredictBehavior.noResults "u1" "u2" ⟨[]⟩).resp =
      Response.error ⟨500, "ファイルのアップロード処理中にエラーが発生しました。"⟩ ∧
    ((predict_image true "cat.png" SaveOutcome.failPartial
        PredictBehavior.noResults "u1" "u2" ⟨[]⟩).fs).exists
      (tempInputPath "u1" ".png") = true := by
  exact ⟨rfl, by decide⟩

/-- C1 (amended): for every request in which the upload-persisting step
does not fail after creating the file (and whose temp path is fresh, as a
fresh `uuid.uuid4()` guarantees), after the request completes the temp
input file no longer exists, whatever the inference outcome; `os.remove`
is modelled as succeeding. -/
theorem C1_temp_file_deleted (m : Bool) (filename : String) (so : SaveOutcome)
    (beh : PredictBehavior) (ui uo : String) (fs : FS)
    (hso : so ≠ SaveOutcome.failPartial)
    (hfresh : fs.exists (tempInputPath ui (pyLower (splitext_ext filename))) = false) :
    ((predict_image m filename so beh ui uo fs).fs).exists
      (tempInputPath ui (pyLower (splitext_ext filename))) = false := by
  cases m
  · simpa using hfresh
  · by_cases hext : pyLower (splitext_ext filename) ∈ allowed_extensions
    · simp only [predict_image, Bool.not_true, Bool.false_eq_true, if_false,
        if_neg (not_not_intro hext)]
      cases so
      · rcases h : (run_detection true beh uo
            (tempInputPath ui (pyLower (splitext_ext filename)))
            (fs.create (tempInputPath ui (pyLower (splitext_ext filename))))).outcome
          with e | q <;> simp only [h] <;> split
        · exact FS.exists_remove_self _ _
        · next hnot => simpa using hnot
        · exact FS.exists_remove_self _ _
        · next hnot => simpa using hnot
      · exact absurd rfl hso
      · simpa using hfresh
    · simp only [predict_image, Bool.not_true, Bool.false_eq_true, if_false,
        if_pos hext]
      simpa using hfresh

/-- C1 (witness): the amended claim at a concrete successful request: the
temp input file `temp_uploads/u1.png` is gone afterwards. -/
theorem C1_temp_file_deleted_witness :
    ((predict_image true "cat.png" SaveOutcome.ok
        (PredictBehavior.ok "temp_outputs/u2" ["u1.png"]) "u1" "u2" ⟨[]⟩).fs).exists
      (tempInputPath "u1" (pyLower (splitext_ext "cat.png"))) = false :=
  C1_temp_file_deleted true "cat.png" SaveOutcome.ok
    (PredictBehavior.ok "temp_outputs/u2" ["u1.png"]) "u1" "u2" ⟨[]⟩
    (by decide) (by decide)

/-- C3 (counterexample): an unexpected exception raised inside inference
(`model.predict` raising with text `boom`) reaches the caller as a 500
whose message embeds the exception text (line 97), not as the generic
message of line 140. -/
theorem C3_counterexample :
    (predict_image true "cat.png" SaveOutcome.ok (PredictBehavior.raises "boom")
        "u1" "u2" ⟨[]⟩).resp =
      Response.error ⟨500, unexpectedDetail "boom"⟩ ∧
    pyEndsWith (unexpectedDetail "boom") "boom" = true ∧
    unexpectedDetail "boom" ≠ "推論処理中に予期せぬエラーが発生しました。" :=
  ⟨rfl, by decide, by decide⟩

/-- C3 (amended): every `HTTPException` raised by `run_detection` passes
through `predict_image` unchanged (same status code and same detail), but
an unexpected exception raised inside the inference `try` block is wrapped
by `run_detection` itself into a 500 whose detail embeds the exception's
text; the generic no-leak detail of line 140 is reserved for non-HTTP
exceptions escaping `run_detection`, which raises only `HTTPException`s. -/
theorem C3_error_propagation (filename : String) (beh : PredictBehavior)
    (ui uo : String) (fs : FS)
    (hext : pyLower (splitext_ext filename) ∈ allowed_extensions) :
    (∀ e : HTTPError,
      (run_detection true beh uo (tempInputPath ui (pyLower (splitext_ext filename)))
          (fs.create (tempInputPath ui (pyLower (splitext_ext filename))))).outcome =
        DetectOutcome.raised e →
      (predict_image true filename SaveOutcome.ok beh ui uo fs).resp =
        Response.error e) ∧
    (∀ msg : String, beh = PredictBehavior.raises msg →
      (predict_image true filename SaveOutcome.ok beh ui uo fs).resp =
        Response.error ⟨500, unexpectedDetail msg⟩ ∧
      pyEndsWith (unexpectedDetail msg) msg = true) := by
  constructor
  · intro e he
    simp only [predict_image, Bool.not_true, Bool.false_eq_true, if_false,
      if_neg (not_not_intro hext), he]
  · rintro msg rfl
    refine ⟨?_, ?_⟩
    · simp only [predict_image, run_detection, Bool.not_true, Bool.false_eq_true,
        if_false, if_neg (not_not_intro hext)]
    · simp only [pyEndsWith, unexpectedDetail, String.data_append,
        List.isSuffixOf_iff_suffix]
      exact List.suffix_append _ _

/-- C3 (witness): the amended claim at concrete inputs: the pass-through
and the text-embedding 500 observed on a run where `model.predict` raises
`ValueError: boom`. -/
theorem C3_error_propagation_witness :
    (predict_image true "cat.png" SaveOutcome.ok
        (PredictBehavior.raises "ValueError: boom") "u1" "u2" ⟨[]⟩).resp =
      Response.error ⟨500, unexpectedDetail "ValueError: boom"⟩ ∧
    pyEndsWith (unexpectedDetail "ValueError: boom") "ValueError: boom" = true :=
  (C3_error_propagation "cat.png" (PredictBehavior.raises "ValueError: boom")
      "u1" "u2" ⟨[]⟩ (by decide)).2 "ValueError: boom" rfl

/-- A name produced by `FS.listdir fs dir` does denote an existing file
under `dir`. -/
lemma exists_of_mem_listdir (fs : FS) (dir f : String)
    (h : f ∈ fs.listdir dir) : fs.exists (dir ++ "/" ++ f) = true := by
  unfold FS.listdir at h
  rw [List.mem_filterMap] at h
  obtain ⟨p, hp, hif⟩ := h
  split at hif
  · next hpre =>
    rw [List.isPrefixOf_iff_prefix] at hpre
    obtain ⟨t, ht⟩ := hpre
    injection hif with hif
    have hdrop : p.data.drop (dir.data.length + 1) = t := by
      rw [← ht, List.drop_left' (by simp)]
    have hpeq : dir ++ "/" ++ f = p := by
      apply str_data_inj
      rw [← hif]
      show (dir ++ "/").data ++ p.data.drop (dir.data.length + 1) = p.data
      rw [hdrop, ← ht]
      rfl
    rw [hpeq]
    simp [FS.exists, hp]
  · exact absurd hif (by simp)

/-- C5: the output-location step of `run_detection` after a `model.predict`
call that returned a result saving into `saveDir`: the annotated file is
expected at `saveDir/<basename of the input path>`; if that path is absent,
the first image-like file of the directory listing is used; and if the
listing contains no image-like file the call fails with an `HTTPException`
of status 500 (its detail being the line-91 message re-wrapped by the
line-93 handler) instead of crashing. -/
theorem C5_output_location (saveDir : String) (written : List String)
    (uid path : String) (fs fs1 : FS) (expected : String)
    (hfs1 : fs1 = writeFiles fs saveDir written)
    (hexp : expected = saveDir ++ "/" ++ basenameStr path) :
    (fs1.exists expected = true →
      (run_detection true (PredictBehavior.ok saveDir written) uid path fs).outcome =
        DetectOutcome.ok expected) ∧
    (fs1.exists expected = false →
      ∀ f rest, (fs1.listdir saveDir).filter isImageFileName = f :: rest →
        (run_detection true (PredictBehavior.ok saveDir written) uid path fs).outcome =
          DetectOutcome.ok (saveDir ++ "/" ++ f)) ∧
    (fs1.exists expected = false →
      (fs1.listdir saveDir).filter isImageFileName = [] →
      (run_detection true (PredictBehavior.ok saveDir written) uid path fs).outcome =
        DetectOutcome.raised ⟨500, unexpectedDetail (strOfHTTPError saveFailureError)⟩) := by
  subst hfs1
  subst hexp
  refine ⟨?_, ?_, ?_⟩
  · intro hex
    simp [run_detection, hex]
  · intro hex f rest hfilter
    have hmem : f ∈ (writeFiles fs saveDir written).listdir saveDir :=
      List.mem_of_mem_filter (hfilter ▸ List.mem_cons_self f rest)
    have hex2 := exists_of_mem_listdir (writeFiles fs saveDir written) saveDir f hmem
    simp [run_detection, hex, hfilter, hex2]
  · intro hex hfilter
    simp [run_detection, hex, hfilter]

/-- C5 (witness): the fallback branch observed concretely: the expected
name `u1.png` is absent, so the first image-like file `result.bmp` of the
output subdirectory is returned. -/
theorem C5_output_location_witness :
    (run_detection true (PredictBehavior.ok "temp_outputs/u2" ["result.bmp"])
        "u2" "temp_uploads/u1.png" ⟨[]⟩).outcome =
      DetectOutcome.ok ("temp_outputs/u2" ++ "/" ++ "result.bmp") :=
  (C5_output_location "temp_outputs/u2" ["result.bmp"] "u2" "temp_uploads/u1.png"
      ⟨[]⟩ _ _ rfl rfl).2.1 (by decide) "result.bmp" [] (by decide)

/-- C6: every successful (HTTP 200) response is a `FileResponse` whose
`media_type` is `image/<ext>`, where `<ext>` is the uploaded filename's
lower-cased extension stripped of its leading dot — so the content type
matches the uploaded file's extension family. -/
theorem C6_content_type (m : Bool) (filename : String) (so : SaveOutcome)
    (beh : PredictBehavior) (ui uo : String) (fs : FS) (p mt : String)
    (h : (predict_image m filename so beh ui uo fs).resp =
      Response.fileResponse p mt) :
    mt = "image/" ++ lstripDot (pyLower (splitext_ext filename)) := by
  cases m
  · simp [predict_image] at h
  · by_cases hext : pyLower (splitext_ext filename) ∈ allowed_extensions
    · simp only [predict_image, Bool.not_true, Bool.false_eq_true, if_false,
        if_neg (not_not_intro hext)] at h
      cases so
      · rcases ho : (run_detection true beh uo
            (tempInputPath ui (pyLower (splitext_ext filename)))
            (fs.create (tempInputPath ui (pyLower (splitext_ext filename))))).outcome
          with e | q
        · simp [ho] at h
        · simp only [ho] at h
          injection h with h1 h2
          exact h2.symm
      · simp at h
      · simp at h
    · simp only [predict_image, Bool.not_true, Bool.false_eq_true, if_false,
        if_pos hext] at h
      simp at h

/-- C6 (witness): the theorem at a concrete successful run: a `.png`
upload yields content type `image/png`. -/
theorem C6_content_type_witness :
    "image/png" = "image/" ++ lstripDot (pyLower (splitext_ext "cat.png")) :=
  C6_content_type true "cat.png" SaveOutcome.ok
    (PredictBehavior.ok "temp_outputs/u2" ["u1.png"]) "u1" "u2" ⟨[]⟩
    "temp_outputs/u2/u1.png" "image/png" (by decide)

/-- C7: with a loaded model, every `run_detection` call invokes
`model.predict` exactly once, with `save=True`, the fixed confidence
threshold `CONF_THRESHOLD` (equal to `1/2`), `project=TEMP_OUTPUT_DIR` and
`name` the generated identifier — i.e. persisting under the per-call
subdirectory `outputSubdir uid` of `temp_outputs` — and distinct generated
identifiers give distinct output subdirectories. -/
theorem C7_predict_once (beh : PredictBehavior) (uid path : String) (fs : FS) :
    (run_detection true beh uid path fs).calls =
      [⟨path, true, CONF_THRESHOLD, TEMP_OUTPUT_DIR, uid, true⟩] ∧
    CONF_THRESHOLD = (1 : ℚ) / 2 ∧
    outputSubdir uid = TEMP_OUTPUT_DIR ++ "/" ++ uid ∧
    (∀ uid' : String, uid ≠ uid' → outputSubdir uid ≠ outputSubdir uid') := by
  refine ⟨?_, by norm_num [CONF_THRESHOLD], rfl, ?_⟩
  · cases beh <;> simp only [run_detection] <;> (repeat' split) <;>
      first | rfl | simp_all
  · intro uid' hne h
    apply hne
    have hd := congrArg String.data h
    simp only [outputSubdir, String.data_append] at hd
    exact str_data_inj (List.append_cancel_left hd)

/-- C7 (witness): the theorem at concrete inputs, including distinctness
of the output subdirectories of two distinct identifiers. -/
theorem C7_predict_once_witness :
    (run_detection true PredictBehavior.noResults "a" "p" ⟨[]⟩).calls =
      [⟨"p", true, CONF_THRESHOLD, TEMP_OUTPUT_DIR, "a", true⟩] ∧
    outputSubdir "a" ≠ outputSubdir "b" :=
  ⟨(C7_predict_once PredictBehavior.noResults "a" "p" ⟨[]⟩).1,
    (C7_predict_once PredictBehavior.noResults "a" "p" ⟨[]⟩).2.2.2 "b" (by decide)⟩

lemma take4_of_append_eq {r1 r2 x y : List Char} (h : r1 ++ x = r2 ++ y)
    (h1 : 4 ≤ r1.length) (h2 : 4 ≤ r2.length) :
    r1.take 4 = r2.take 4 := by
  rw [← List.take_append_of_le_length h1, ← List.take_append_of_le_length h2, h]

/-- Appending distinct tails (either equal suffixes with distinct fronts,
or suffixes distinguishable in their last four characters) yields distinct
lists. -/
lemma append_tail_ne {u1 u2 a b : List Char} (hu : u1 ≠ u2)
    (hab : a = b ∨ a.reverse.take 4 ≠ b.reverse.take 4)
    (h4a : 4 ≤ a.length) (h4b : 4 ≤ b.length) :
    u1 ++ a ≠ u2 ++ b := by
  intro h
  rcases hab with rfl | hne
  · exact hu (List.append_cancel_right h)
  · have hr := congrArg List.reverse h
    rw [List.reverse_append, List.reverse_append] at hr
    exact hne (take4_of_append_eq hr (by simpa using h4a) (by simpa using h4b))

/-- C8: two requests with distinct generated identifiers never collide on
disk: their temp input paths differ (for any allowed upload extensions)
and their output subdirectories differ. -/
theorem C8_unique_paths (ui1 ui2 e1 e2 uo1 uo2 : String)
    (hui : ui1 ≠ ui2) (huo : uo1 ≠ uo2)
    (he1 : e1 ∈ allowed_extensions) (he2 : e2 ∈ allowed_extensions) :
    tempInputPath ui1 e1 ≠ tempInputPath ui2 e2 ∧
    outputSubdir uo1 ≠ outputSubdir uo2 := by
  constructor
  · intro h
    have hd := congrArg String.data h
    simp only [tempInputPath, String.data_append, List.append_assoc] at hd
    have hd2 := List.append_cancel_left (List.append_cancel_left hd)
    have hu : ui1.data ≠ ui2.data := fun hq => hui (str_data_inj hq)
    have he1' : e1 = ".jpg" ∨ e1 = ".jpeg" ∨ e1 = ".png" := by
      simpa [allowed_extensions] using he1
    have he2' : e2 = ".jpg" ∨ e2 = ".jpeg" ∨ e2 = ".png" := by
      simpa [allowed_extensions] using he2
    rcases he1' with rfl | rfl | rfl <;> rcases he2' with rfl | rfl | rfl <;>
      exact append_tail_ne hu (by decide) (by decide) (by decide) hd2
  · intro h
    have hd := congrArg String.data h
    simp only [outputSubdir, String.data_append] at hd
    exact huo (str_data_inj (List.append_cancel_left hd))

/-- C8 (witness): the theorem at concrete distinct identifiers and
extensions. -/
theorem C8_unique_paths_witness :
    tempInputPath "a" ".jpg" ≠ tempInputPath "b" ".png" ∧
    outputSubdir "c" ≠ outputSubdir "d" :=
  C8_unique_paths "a" "b" ".jpg" ".png" "c" "d"
    (by decide) (by decide) (by decide) (by decide)

/-- The extension computed by `splitext` is a suffix of the path. -/
lemma extChars_suffix (p : List Char) : extChars p <:+ p := by
  have hbase : basenameChars p <:+ p := by
    have h1 : (p.reverse.takeWhile (· != '/')).reverse <:+ p.reverse.reverse :=
      List.reverse_suffix.mpr (List.takeWhile_prefix _)
    simpa [basenameChars] using h1
  have hrest : (basenameChars p).dropWhile (· == '.') <:+ basenameChars p :=
    List.dropWhile_suffix _
  simp only [extChars]
  by_cases hdot : ('.' : Char) ∈ (basenameChars p).dropWhile (· == '.')
  · rw [if_pos hdot]
    set rest := (basenameChars p).dropWhile (· == '.') with hrestdef
    have hsplit : rest.reverse.takeWhile (· != '.') ++
        rest.reverse.dropWhile (· != '.') = rest.reverse :=
      List.takeWhile_append_dropWhile _ _
    have hne : rest.reverse.dropWhile (· != '.') ≠ [] := by
      intro h0
      rw [h0, List.append_nil] at hsplit
      have hmem : ('.' : Char) ∈ rest.reverse.takeWhile (· != '.') := by
        rw [hsplit]; exact List.mem_reverse.mpr hdot
      have := List.mem_takeWhile_imp hmem
      simp at this
    obtain ⟨c, t, hct⟩ : ∃ c t, rest.reverse.dropWhile (· != '.') = c :: t := by
      rcases hd : rest.reverse.dropWhile (· != '.') with _ | ⟨c, t⟩
      · exact absurd hd hne
      · exact ⟨c, t, rfl⟩
    have hc : c = '.' := by
      have hh := List.head?_dropWhile_not (· != '.') rest.reverse
      rw [hct] at hh
      simpa using hh
    subst hc
    rw [hct] at hsplit
    refine List.IsSuffix.trans ?_ (hrest.trans hbase)
    refine ⟨t.reverse, ?_⟩
    calc t.reverse ++ ('.' :: (rest.reverse.takeWhile (· != '.')).reverse)
        = (rest.reverse.takeWhile (· != '.') ++ ('.' :: t)).reverse := by
          simp [List.reverse_append]
      _ = rest := by rw [hsplit, List.reverse_reverse]
  · rw [if_neg hdot]
    exact List.nil_suffix

/-- The lower-cased extension is a suffix of the lower-cased filename. -/
lemma splitext_lower_suffix (f : String) :
    (pyLower (splitext_ext f)).data <:+ (pyLower f).data := by
  simpa [pyLower, splitext_ext] using (extChars_suffix f.data).map Char.toLower

/-- A filename containing no dot has empty `splitext` extension. -/
lemma splitext_ext_of_no_dot (f : String) (h : ∀ c ∈ f.data, c ≠ '.') :
    splitext_ext f = "" := by
  have hrest : ('.' : Char) ∉ (basenameChars f.data).dropWhile (· == '.') := by
    intro hc
    have h1 : ('.' : Char) ∈ basenameChars f.data :=
      (List.dropWhile_suffix _).subset hc
    rw [basenameChars] at h1
    have h2 : ('.' : Char) ∈ f.data.reverse :=
      (List.takeWhile_prefix _).subset (List.mem_reverse.mp h1)
    exact h '.' (List.mem_reverse.mp h2) rfl
  simp only [splitext_ext, extChars, if_neg hrest]

/-- C9: the extension check lower-cases the extension before comparing, so
a filename is handled exactly like any filename with the same lower-cased
extension (`.JPG`, `.Jpeg`, `.PNG` behave like their lower-case forms,
which are allowed), and a filename containing no dot has empty extension
and is rejected with 400 when the model is loaded. -/
theorem C9_case_insensitive :
    (∀ (m : Bool) (f g : String) (so : SaveOutcome) (beh : PredictBehavior)
        (ui uo : String) (fs : FS),
      pyLower (splitext_ext f) = pyLower (splitext_ext g) →
      predict_image m f so beh ui uo fs = predict_image m g so beh ui uo fs) ∧
    pyLower (splitext_ext "photo.JPG") = ".jpg" ∧
    pyLower (splitext_ext "photo.Jpeg") = ".jpeg" ∧
    pyLower (splitext_ext "photo.PNG") = ".png" ∧
    (".jpg" : String) ∈ allowed_extensions ∧
    (".jpeg" : String) ∈ allowed_extensions ∧
    (".png" : String) ∈ allowed_extensions ∧
    (∀ f : String, (∀ c ∈ f.data, c ≠ '.') →
      ∀ (so : SaveOutcome) (beh : PredictBehavior) (ui uo : String) (fs : FS),
        (predict_image true f so beh ui uo fs).resp =
          Response.error ⟨400, invalidExtDetail⟩) := by
  refine ⟨?_, by decide, by decide, by decide, by decide, by decide, by decide, ?_⟩
  · intro m f g so beh ui uo fs hfg
    cases m
    · rfl
    · simp only [predict_image, hfg]
  · intro f hf so beh ui uo fs
    have hext : pyLower (splitext_ext f) ∉ allowed_extensions := by
      rw [splitext_ext_of_no_dot f hf]
      decide
    have h400 : predict_image true f so beh ui uo fs =
        ⟨.error ⟨400, invalidExtDetail⟩, fs, []⟩ := by
      simp only [predict_image, Bool.not_true, Bool.false_eq_true, if_false,
        if_pos hext]
    rw [h400]

/-- C9 (witness): an upper-case `.JPG` upload is handled identically to
its lower-case form, and a dotless filename is rejected with 400. -/
theorem C9_case_insensitive_witness :
    predict_image true "photo.JPG" SaveOutcome.ok PredictBehavior.noResults
        "u1" "u2" ⟨[]⟩ =
      predict_image true "photo.jpg" SaveOutcome.ok PredictBehavior.noResults
        "u1" "u2" ⟨[]⟩ ∧
    (predict_image true "nodotfile" SaveOutcome.ok PredictBehavior.noResults
        "u1" "u2" ⟨[]⟩).resp = Response.error ⟨400, invalidExtDetail⟩ :=
  ⟨C9_case_insensitive.1 true "photo.JPG" "photo.jpg" SaveOutcome.ok
      PredictBehavior.noResults "u1" "u2" ⟨[]⟩ (by decide),
    C9_case_insensitive.2.2.2.2.2.2.2 "nodotfile" (by decide) SaveOutcome.ok
      PredictBehavior.noResults "u1" "u2" ⟨[]⟩⟩

/-- C10: the fallback search of line 79 accepts a strictly larger,
case-insensitive set of extensions than the upload whitelist: every
filename whose lower-cased upload extension is allowed matches it; `.bmp`
and `.tiff` files match too (case-insensitively) although such uploads
are rejected; and a `.bmp` file in the output subdirectory is returned to
the caller by the fallback. -/
theorem C10_fallback_superset :
    (∀ f : String, pyLower (splitext_ext f) ∈ allowed_extensions →
      isImageFileName f = true) ∧
    isImageFileName "result.bmp" = true ∧
    isImageFileName "RESULT.TIFF" = true ∧
    pyLower (splitext_ext "result.bmp") ∉ allowed_extensions ∧
    pyLower (splitext_ext "RESULT.TIFF") ∉ allowed_extensions ∧
    (run_detection true (PredictBehavior.ok "temp_outputs/u" ["result.bmp"])
        "u" "temp_uploads/x.png" ⟨[]⟩).outcome =
      DetectOutcome.ok "temp_outputs/u/result.bmp" := by
  refine ⟨?_, by decide, by decide, by decide, by decide, by decide⟩
  intro f hmem
  have hsub : ∀ x ∈ allowed_extensions, x ∈ imageFileExts := by decide
  rw [isImageFileName, List.any_eq_true]
  refine ⟨pyLower (splitext_ext f), hsub _ hmem, ?_⟩
  simp only [pyEndsWith, List.isSuffixOf_iff_suffix]
  exact splitext_lower_suffix f

/-- C10 (witness): a filename passing the upload whitelist is matched by
the fallback filter. -/
theorem C10_fallback_superset_witness : isImageFileName "a.jpg" = true :=
  C10_fallback_superset.1 "a.jpg" (by decide)

end Backend
